import Mathlib

/-!
Shallow embedding of the gpx2maps repository (src/gpx2maps) and proofs
about the claims of its specification.

Modelling conventions:
* Python strings (and response bodies) are lists of character codes,
  `Str := List Nat`; `strCodes` turns a Lean string literal into such a list.
  All string operations used by the code (strip, upper, lower, prefix,
  substring, regex-shaped scans) act on ASCII code points, which covers every
  string the repository manipulates.
* Python floats that only flow through decimal parsing and ordering
  comparisons are modelled as rationals; coordinates that only flow into
  f-string interpolation are carried as their decimal rendering (Python repr
  of the float literal), which is exact for the literals appearing in the code.
* Network fetches and BeautifulSoup parse results are an explicit environment
  value (`MalmedyEnv`): a fetch either fails (`none`, modelling a raised
  requests exception caught by scraper.py) or yields the parsed page/response.
* Fallible calls return `Except`/`Option` instead of raising; file writes are
  modelled by returning the path and content that scraper.py would write.
-/

/-- Python strings as lists of character code points. -/
abbrev Str := List Nat

/-- Code-point list of a Lean string literal (used to transcribe the
literals of the Python source). -/
def strCodes (s : String) : Str := s.data.map Char.toNat

/-- Python `\s` / `str.strip` whitespace, ASCII range. -/
def pySpace (c : Nat) : Bool := decide (c = 9 ∨ c = 10 ∨ c = 11 ∨ c = 12 ∨ c = 13 ∨ c = 32)

/-- ASCII digit test, Python `\d`. -/
def pyDigit (c : Nat) : Bool := decide (48 ≤ c ∧ c ≤ 57)

/-- ASCII letter test (Python cased character, ASCII range). -/
def pyAlpha (c : Nat) : Bool := decide ((65 ≤ c ∧ c ≤ 90) ∨ (97 ≤ c ∧ c ≤ 122))

/-- `str.upper` on one ASCII code point. -/
def pyUpperChar (c : Nat) : Nat := if 97 ≤ c ∧ c ≤ 122 then c - 32 else c

/-- `str.lower` on one ASCII code point. -/
def pyLowerChar (c : Nat) : Nat := if 65 ≤ c ∧ c ≤ 90 then c + 32 else c

/-- `str.lower` on a string. -/
def pyLower (s : Str) : Str := s.map pyLowerChar

/-- `str.strip()`: remove leading and trailing whitespace. -/
def pyStrip (s : Str) : Str := ((s.dropWhile pySpace).reverse.dropWhile pySpace).reverse

/-- Identifier normalization used by scraper.py (lines 221, 307, 316):
`re.sub(r'\s+', '', s).upper()` — drop every whitespace character, then
upper-case. -/
def normalizeId (s : Str) : Str := (s.filter (fun c => !pySpace c)).map pyUpperChar

/-- Try to match the regex `(MDY\s*\d+)` (case-insensitive) at the head of
the string: `M`,`D`,`Y` in any case, then a greedy run of whitespace, then a
nonempty greedy run of digits.  Returns the matched text. -/
def matchMdyAt (s : Str) : Option Str :=
  match s with
  | m :: d :: y :: rest =>
    if pyLowerChar m = 109 ∧ pyLowerChar d = 100 ∧ pyLowerChar y = 121 then
      let ws := rest.takeWhile pySpace
      let digits := (rest.dropWhile pySpace).takeWhile pyDigit
      if digits = [] then none else some (m :: d :: y :: (ws ++ digits))
    else none
  | _ => none

/-- `re.search(r'(MDY\s*\d+)', s, re.IGNORECASE)`: leftmost match. -/
def mdySearch : Str → Option Str
  | [] => none
  | c :: rest =>
    match matchMdyAt (c :: rest) with
    | some m => some m
    | none => mdySearch rest

/-- Value of a digit run, as used by Python `float`. -/
def digitsVal (s : Str) : ℚ := s.foldl (fun a c => a * 10 + ((c : ℚ) - 48)) 0

/-- Python `float(s)` on the strings reachable in scraper.py (runs of digits
and dots produced by the `([\d,]+)` capture after `replace(',', '.')`, plus
the free-form distance fields of the sample adapters): `some` value for
`digits [. digits]` with at least one digit, `none` (a raised `ValueError`
in the source, always caught) otherwise. -/
def pyFloatParse (s : Str) : Option ℚ :=
  let ip := s.takeWhile pyDigit
  match s.drop ip.length with
  | [] => if ip = [] then none else some (digitsVal ip)
  | c :: frac =>
    if c = 46 ∧ (∀ d ∈ frac, pyDigit d = true) ∧ (ip ≠ [] ∨ frac ≠ []) then
      some (digitsVal ip + digitsVal frac / (10 : ℚ) ^ frac.length)
    else none

/-- `distance_str.replace(',', '.')` (scraper.py line 234). -/
def commaToDot (s : Str) : Str := s.map (fun c => if c = 44 then 46 else c)

/-- Python `needle in hay` on strings: some suffix of `hay` starts with
`needle`. -/
def pyContains (needle : Str) : Str → Bool
  | [] => decide (needle = [])
  | c :: rest => needle.isPrefixOf (c :: rest) || pyContains needle rest

/-- Python `range(a, b, s)` for positive step `s`. -/
def pyRange (a b s : Nat) : List Nat := List.range' a ((b - a + s - 1) / s) s

/-- maps_converter.py lines 58–81, `MapsConverter._simplify_points`:
if the input fits, return it unchanged; otherwise keep the first point,
every `step`-th index below `len - 1` with `step = len // (max_points - 1)`,
and append the last point when it is not already last.  Polymorphic like the
Python original (applied there to pairs of floats, whose `!=` is the
decidable equality of the model).  Only meaningful for `max_points ≥ 2`, as
in every claim and call site: for `max_points = 1` the source raises
ZeroDivisionError where Nat division yields 0. -/
def _simplify_points {α : Type} [DecidableEq α] (points : List α) (max_points : Nat) : List α :=
  if points.length ≤ max_points then points
  else
    let step := points.length / (max_points - 1)
    let simplified := points.take 1 ++ (pyRange step (points.length - 1) step).filterMap (fun i => points[i]?)
    if simplified.getLast? ≠ points.getLast? then simplified ++ points.getLast?.toList else simplified

/-- A (latitude, longitude) pair carried as the decimal renderings that the
f-strings of the source interpolate (Python repr of the float values). -/
abbrev Coord := Str × Str

/-- maps_converter.py lines 10–31: only the `api_key` field is state; the
`googlemaps.Client` created in `__init__` is never used by the URL builders. -/
structure MapsConverter where
  api_key : Str

/-- The slice of `route_data` that `MapsConverter` reads. -/
structure RouteData where
  points : List Coord
  name : Option Str

/-- Decimal rendering of a natural number (Python `"{}".format(n)`). -/
def natDigits (n : Nat) : Str := (Nat.toDigits 10 n).map Char.toNat

/-- Python `sep.join(xs)`. -/
def pyJoin (sep : Str) : List Str → Str
  | [] => []
  | [x] => x
  | x :: y :: xs => x ++ sep ++ pyJoin sep (y :: xs)

/-- maps_converter.py lines 83–104, `MapsConverter._create_maps_url`:
`https://www.google.com/maps/dir/lat1,lon1/.../latN,lonN` followed by
`/@lat1,lon1,12z/data=!4m2!4m1!3e2`.  `route_name` is a parameter the source
also never uses.  The head default is never reached: every caller passes a
nonempty list (the source would raise IndexError otherwise). -/
def _create_maps_url (points : List Coord) (route_name : Str) : Str :=
  let path_segments := points.map fun p => p.1 ++ strCodes (",") ++ p.2
  let url := strCodes ("https://www.google.com/maps/dir") ++ strCodes ("/") ++
    pyJoin (strCodes ("/")) path_segments
  let p0 := points.headD ([], [])
  url ++ strCodes ("/@") ++ p0.1 ++ strCodes (",") ++ p0.2 ++ strCodes (",") ++
    natDigits 12 ++ strCodes ("z/data=") ++ strCodes ("!4m2!4m1!3e2")

/-- maps_converter.py lines 33–56, `MapsConverter.convert`: raise
`ValueError("No points found in route data")` on an empty point list, else
simplify to 25 points and build the directions URL. -/
def MapsConverter.convert (c : MapsConverter) (route_data : RouteData) : Except Str Str :=
  if route_data.points = [] then Except.error (strCodes ("No points found in route data"))
  else Except.ok (_create_maps_url (_simplify_points route_data.points 25)
    (route_data.name.getD (strCodes ("Route"))))

/-- Upper-case hex digit, as produced by `urllib.parse.urlencode`. -/
def hexDigit (n : Nat) : Nat := if n < 10 then 48 + n else 55 + n

/-- `urllib.parse.quote_plus` on one ASCII code point. -/
def quotePlusChar (c : Nat) : Str :=
  if (48 ≤ c ∧ c ≤ 57) ∨ (65 ≤ c ∧ c ≤ 90) ∨ (97 ≤ c ∧ c ≤ 122) ∨ c = 95 ∨ c = 46 ∨ c = 45 ∨ c = 126 then [c]
  else if c = 32 then [43]
  else [37, hexDigit (c / 16 % 16), hexDigit (c % 16)]

/-- `urllib.parse.quote_plus` on a string of ASCII code points. -/
def quotePlus (s : Str) : Str := (s.map quotePlusChar).flatten

/-- maps_converter.py lines 106–139, `MapsConverter.create_static_map_url`:
the one consumer of `api_key`. -/
def MapsConverter.create_static_map_url (c : MapsConverter) (route_data : RouteData)
    (width height : Nat) : Except Str Str :=
  if route_data.points = [] then Except.error (strCodes ("No points found in route data"))
  else
    let pts := _simplify_points route_data.points 50
    let path_coords := pyJoin (strCodes ("|")) (pts.map fun p => p.1 ++ strCodes (",") ++ p.2)
    let params := strCodes ("size=") ++
      quotePlus (natDigits width ++ strCodes ("x") ++ natDigits height) ++
      strCodes ("&path=") ++ quotePlus (strCodes ("color:0x0000ff|weight:3|") ++ path_coords) ++
      strCodes ("&key=") ++ quotePlus c.api_key
    Except.ok (strCodes ("https://maps.googleapis.com/maps/api/staticmap?") ++ params)

/-- qr_generator.py lines 10–50, `create_maps_url_no_api`: raises
`ValueError("No points provided")` on empty input; otherwise reduces with its
own inline variant (step `len // (max_points - 2)`, unconditional append of
the last point) and renders the same directions URL with zoom 13. -/
def create_maps_url_no_api (points : List Coord) (route_name : Str) : Except Str Str :=
  if points = [] then Except.error (strCodes ("No points provided"))
  else
    let pts := if 25 < points.length then
        let step := points.length / 23
        (points.take 1 ++ (pyRange step (points.length - 1) step).filterMap (fun i => points[i]?))
          ++ points.getLast?.toList
      else points
    let p0 := pts.headD ([], [])
    Except.ok (strCodes ("https://www.google.com/maps/dir") ++ strCodes ("/") ++
      pyJoin (strCodes ("/")) (pts.map fun p => p.1 ++ strCodes (",") ++ p.2) ++
      strCodes ("/@") ++ p0.1 ++ strCodes (",") ++ p0.2 ++ strCodes (",") ++
      natDigits 13 ++ strCodes ("z/data=!4m2!4m1!3e2"))

/-- The eight `trkpt` coordinates of the GPX template that
`BaseScraper._create_sample_gpx` (scraper.py lines 41–79) serializes: a small
closed loop near Malmedy, the eighth point repeating the first. -/
def sampleGpxPoints : List (ℚ × ℚ) :=
  [(504233/10000, 60294/10000), (504250/10000, 60310/10000),
   (504270/10000, 60330/10000), (504285/10000, 60345/10000),
   (504290/10000, 60320/10000), (504275/10000, 60300/10000),
   (504250/10000, 60285/10000), (504233/10000, 60294/10000)]

/-- The route record backing the sample GPX artifact: the interpolated name
and the track points of the serialized XML (elevations omitted; they do not
enter any RouteRecord field the spec talks about). -/
structure SampleGpx where
  name : Str
  points : List (ℚ × ℚ)
deriving DecidableEq

/-- scraper.py lines 41–79, `BaseScraper._create_sample_gpx`: the template
interpolates only `name`; the `route_id` argument is accepted and ignored,
exactly as in the source. -/
def _create_sample_gpx (route_id : Str) (name : Str) : SampleGpx :=
  ⟨name, sampleGpxPoints⟩

/-- A written artifact: either the downloaded response body or the sample
GPX record (scraper.py `_save_gpx` writes the former verbatim and the latter
as the serialized template). -/
inductive Artifact where
  | downloaded (content : Str)
  | sample (record : SampleGpx)
deriving DecidableEq

/-- scraper.py lines 33–39, `BaseScraper._save_gpx`: the returned path is
`os.path.join('gpx_files', filename)`. -/
def _save_gpx_path (filename : Str) : Str := strCodes ("gpx_files/") ++ filename

/-- `re.search(r'/route/view/([^/]+)', url)` (scraper.py line 146): leftmost
occurrence of the literal followed by a nonempty run of non-slash characters. -/
def routeYouIdSearch : Str → Option Str
  | [] => none
  | c :: rest =>
    if (strCodes ("/route/view/")).isPrefixOf (c :: rest) then
      let cap := ((c :: rest).drop 12).takeWhile (fun ch => ch != 47)
      if cap = [] then routeYouIdSearch rest else some cap
    else routeYouIdSearch rest

/-- `re.search(r'id=([^&]+)', url)` (scraper.py line 444). -/
def wikilocIdSearch : Str → Option Str
  | [] => none
  | c :: rest =>
    if (strCodes ("id=")).isPrefixOf (c :: rest) then
      let cap := ((c :: rest).drop 3).takeWhile (fun ch => ch != 38)
      if cap = [] then wikilocIdSearch rest else some cap
    else wikilocIdSearch rest

/-- scraper.py lines 142–159, `RouteYouScraper.download`: no network request
is issued; the sample GPX is written under
`routeyou_{route_id}.gpx` (default name) and `ValueError` is raised when the
URL does not contain a route id.  Python's `if not output_filename` treats
both `None` and the empty string as absent. -/
def RouteYouScraper.download (url : Str) (output_filename : Option Str) :
    Except Str (Str × Artifact) :=
  match routeYouIdSearch url with
  | none => Except.error (strCodes ("Could not extract route ID from URL"))
  | some route_id =>
    let fname := match output_filename with
      | some f => if f = [] then strCodes ("routeyou_") ++ route_id ++ strCodes (".gpx") else f
      | none => strCodes ("routeyou_") ++ route_id ++ strCodes (".gpx")
    Except.ok (_save_gpx_path fname,
      Artifact.sample (_create_sample_gpx route_id (strCodes ("DEMO RouteYou Route (SAMPLE)"))))

/-- scraper.py lines 440–456, `WikilocScraper.download`: same shape as the
RouteYou adapter with the `id=([^&]+)` pattern and the Wikiloc sample name. -/
def WikilocScraper.download (url : Str) (output_filename : Option Str) :
    Except Str (Str × Artifact) :=
  match wikilocIdSearch url with
  | none => Except.error (strCodes ("Could not extract route ID from URL"))
  | some route_id =>
    let fname := match output_filename with
      | some f => if f = [] then strCodes ("wikiloc_") ++ route_id ++ strCodes (".gpx") else f
      | none => strCodes ("wikiloc_") ++ route_id ++ strCodes (".gpx")
    Except.ok (_save_gpx_path fname,
      Artifact.sample (_create_sample_gpx route_id (strCodes ("DEMO Wikiloc Route (SAMPLE)"))))

/-- A candidate route summary as assembled by the Malmedy listing loop
before its filters run (scraper.py lines 196–237). -/
structure MalmedyCandidate where
  route_id : Str
  title : Str
  distance_str : Option Str
  url : Str
deriving DecidableEq

/-- The filter steps of the Malmedy search loop (scraper.py lines 239–251):
skip when a nonempty prefix is not a prefix of the route id; skip when the
distance string is present, nonempty, parses as a float and exceeds
`distance_km`; keep in every other case (a `ValueError` from `float` is
caught with `pass`). -/
def malmedyKeep (pfx : Str) (distance_km : ℚ) (r : MalmedyCandidate) : Bool :=
  (decide (pfx = []) || pfx.isPrefixOf r.route_id) &&
  (match r.distance_str with
   | none => true
   | some ds =>
     if ds = [] then true
     else match pyFloatParse ds with
       | none => true
       | some d => decide (d ≤ distance_km))

/-- The Malmedy search loop restricted to its filtering effect: candidates
surviving both filters, in listing order. -/
def malmedySearchFilter (pfx : Str) (distance_km : ℚ) (routes : List MalmedyCandidate) :
    List MalmedyCandidate :=
  routes.filter (malmedyKeep pfx distance_km)

/-- A sample-route entry of RouteYouScraper.search / WikilocScraper.search. -/
structure RouteYouCandidate where
  title : Str
  distance : Str
  url : Str
deriving DecidableEq

/-- The filter of the RouteYou (and Wikiloc) search loop, scraper.py lines
127–135 and 426–433: prefix on the title, then keep when the distance parses
to at most `distance_km` or does not parse at all. -/
def routeYouKeep (pfx : Str) (distance_km : ℚ) (r : RouteYouCandidate) : Bool :=
  (decide (pfx = []) || pfx.isPrefixOf r.title) &&
  (match pyFloatParse r.distance with
   | none => true
   | some d => decide (d ≤ distance_km))

/-- The RouteYou search loop restricted to its filtering effect. -/
def routeYouSearchFilter (pfx : Str) (distance_km : ℚ) (routes : List RouteYouCandidate) :
    List RouteYouCandidate :=
  routes.filter (routeYouKeep pfx distance_km)

/-- An HTTP response for the GPX artifact fetch: raw Content-Type header and
body text. -/
structure GpxResponse where
  content_type : Str
  body : Str

/-- The export anchor found by the three-strategy search of scraper.py lines
321–323 (fixed id `cdf_exporterGPX`, class matching `gpx`, href matching
`cirkwi.*gpx`); only its href matters downstream. -/
structure GpxLinkData where
  href : Str

/-- The parse result of the detail page: text of the first h1 (if any), the
texts of all h1/h2/h3 headings in document order (each `get_text(strip=True)`),
and the export link when one of the three strategies matched. -/
structure DetailPage where
  h1 : Option Str
  headings : List Str
  gpx_link : Option GpxLinkData

/-- The environment a Malmedy download runs against: `pageResult = none`
models a raised requests exception on the page fetch, `fetchGpx u = none`
one on the artifact fetch of URL `u`. -/
structure MalmedyEnv where
  pageResult : Option DetailPage
  fetchGpx : Str → Option GpxResponse

/-- `url.split('/')[-1]`. -/
def lastUrlSegment (url : Str) : Str := (url.reverse.takeWhile (fun c => c != 47)).reverse

/-- `.rstrip('/')`. -/
def rstripSlash (s : Str) : Str := (s.reverse.dropWhile (fun c => c == 47)).reverse

/-- `url.split('/')[-1].rstrip('/')` (scraper.py lines 349, 363). -/
def malmedyRouteSlug (url : Str) : Str := rstripSlash (lastUrlSegment url)

/-- `route_slug.replace('-', ' ')`. -/
def replaceDashSpace (s : Str) : Str := s.map (fun c => if c = 45 then 32 else c)

/-- Worker for Python `str.title()` on ASCII text: upper-case a letter after
a non-letter, lower-case a letter after a letter. -/
def pyTitleGo : Bool → Str → Str
  | _, [] => []
  | prevAlpha, c :: rest =>
    (if pyAlpha c then (if prevAlpha then pyLowerChar c else pyUpperChar c) else c) ::
      pyTitleGo (pyAlpha c) rest

/-- Python `str.title()` on ASCII text. -/
def pyTitle (s : Str) : Str := pyTitleGo false s

/-- `gpx_url.replace('&amp;', '&')` (scraper.py line 331): left-to-right,
non-overlapping. -/
def replaceAmp : Str → Str
  | 38 :: 97 :: 109 :: 112 :: 59 :: rest => 38 :: replaceAmp rest
  | c :: rest => c :: replaceAmp rest
  | [] => []

/-- scraper.py lines 326–331: absolute artifact URL (prefix the base URL
unless the href already starts with `http`), with HTML entities cleaned. -/
def malmedyGpxUrl (href : Str) : Str :=
  replaceAmp (if (strCodes ("http")).isPrefixOf href then href
    else strCodes ("https://www.malmedy-tourisme.be") ++ href)

/-- scraper.py lines 339–342: accept the fetched artifact only when the
lower-cased Content-Type mentions gpx or xml, or the stripped body starts
with an XML declaration, or the lower-cased body contains the gpx root tag. -/
def gpxAccepted (resp : GpxResponse) : Bool :=
  let ct := pyLower resp.content_type
  pyContains (strCodes ("gpx")) ct || pyContains (strCodes ("xml")) ct ||
  (strCodes ("<?xml")).isPrefixOf (pyStrip resp.body) ||
  pyContains (strCodes ("<gpx")) (pyLower resp.body)

/-- scraper.py lines 311–318: first heading whose text matches the MDY
pattern yields (normalized id, stripped heading text). -/
def headingIdName : List Str → Option Str × Option Str
  | [] => (none, none)
  | h :: t =>
    match mdySearch h with
    | some m => (some (normalizeId m), some (pyStrip h))
    | none => headingIdName t

/-- scraper.py lines 301–318: id/name from the first h1 when it matches,
otherwise from the first matching heading of any level. -/
def extractIdName (page : DetailPage) : Option Str × Option Str :=
  let fromH1 : Option Str × Option Str :=
    match page.h1 with
    | some t =>
      match mdySearch t with
      | some m => (some (normalizeId m), some (pyStrip t))
      | none => (none, none)
    | none => (none, none)
  match fromH1.1 with
  | some _ => fromH1
  | none => headingIdName page.headings

/-- scraper.py lines 345–350 and 372–376: default output filename
`malmedy_{route_id.lower()}.gpx` when an id was extracted, else
`malmedy_{route_slug}.gpx`. -/
def malmedyDefaultFilename (url : Str) (route_id : Option Str) : Str :=
  match route_id with
  | some rid =>
    if rid = [] then strCodes ("malmedy_") ++ malmedyRouteSlug url ++ strCodes (".gpx")
    else strCodes ("malmedy_") ++ pyLower rid ++ strCodes (".gpx")
  | none => strCodes ("malmedy_") ++ malmedyRouteSlug url ++ strCodes (".gpx")

/-- `output_filename` alternative: Python treats `None` and `''` as absent. -/
def malmedyFilename (url : Str) (output_filename : Option Str) (route_id : Option Str) : Str :=
  match output_filename with
  | some f => if f = [] then malmedyDefaultFilename url route_id else f
  | none => malmedyDefaultFilename url route_id

/-- scraper.py lines 362–370: fallback route name (slug words title-cased
when no heading gave a name; extracted id prepended when not already a
prefix of the name). -/
def malmedyFallbackName (url : Str) (route_id route_name : Option Str) : Str :=
  let slug := malmedyRouteSlug url
  let rn := match route_name with
    | some s => if s = [] then pyTitle (replaceDashSpace slug) else s
    | none => pyTitle (replaceDashSpace slug)
  match route_id with
  | some rid =>
    if rid = [] then rn
    else if rid.isPrefixOf rn then rn else rid ++ strCodes (" ") ++ rn
  | none => rn

/-- scraper.py lines 362–381: the terminal fallback of the Malmedy download —
write the sample GPX under the usual naming convention. -/
def malmedyFallbackResult (url : Str) (output_filename : Option Str)
    (route_id route_name : Option Str) : Str × Artifact :=
  (_save_gpx_path (malmedyFilename url output_filename route_id),
   Artifact.sample (_create_sample_gpx (malmedyRouteSlug url)
     (malmedyFallbackName url route_id route_name)))

/-- scraper.py lines 274–381, `MalmedyTourismScraper.download` over an
explicit fetch environment.  Every failure of the try block (page fetch
error, no export link, artifact fetch error, rejected artifact) reaches the
fallback section after line 362; only an accepted artifact returns early
with the downloaded bytes.  The function is total: the source never raises
on this path (all exceptions inside the try are caught). -/
def MalmedyTourismScraper.download (env : MalmedyEnv) (url : Str)
    (output_filename : Option Str) : Str × Artifact :=
  match env.pageResult with
  | none => malmedyFallbackResult url output_filename none none
  | some page =>
    let idn := extractIdName page
    match page.gpx_link with
    | none => malmedyFallbackResult url output_filename idn.1 idn.2
    | some link =>
      match env.fetchGpx (malmedyGpxUrl link.href) with
      | none => malmedyFallbackResult url output_filename idn.1 idn.2
      | some resp =>
        if gpxAccepted resp then
          (_save_gpx_path (malmedyFilename url output_filename idn.1),
           Artifact.downloaded resp.body)
        else malmedyFallbackResult url output_filename idn.1 idn.2

/-- The distance a Malmedy candidate effectively carries through the filter
of scraper.py lines 244–250: `none` when the string is absent, empty, or
rejected by `float`. -/
def malmedyParsedDistance (r : MalmedyCandidate) : Option ℚ :=
  match r.distance_str with
  | none => none
  | some ds => if ds = [] then none else pyFloatParse ds

/-! Helper lemmas -/

/-- Upper-casing never turns a character into whitespace or vice versa. -/
theorem pySpace_pyUpperChar (c : Nat) : pySpace (pyUpperChar c) = pySpace c := by
  unfold pySpace pyUpperChar
  by_cases h : 97 ≤ c ∧ c ≤ 122
  · rw [if_pos h]; exact decide_eq_decide.mpr (by omega)
  · rw [if_neg h]

/-- ASCII upper-casing is idempotent on code points. -/
theorem pyUpperChar_idem (c : Nat) : pyUpperChar (pyUpperChar c) = pyUpperChar c := by
  unfold pyUpperChar
  by_cases h : 97 ≤ c ∧ c ≤ 122
  · rw [if_pos h, if_neg (by omega)]
  · rw [if_neg h, if_neg h]

/-- Identifier normalization is idempotent. -/
theorem normalizeId_idem (s : Str) : normalizeId (normalizeId s) = normalizeId s := by
  unfold normalizeId
  rw [List.filter_map]
  have h1 : ((fun c => !pySpace c) ∘ pyUpperChar) = (fun c => !pySpace c) := by
    funext c; simp [Function.comp, pySpace_pyUpperChar]
  rw [h1, List.filter_filter]
  have h2 : (fun a => (!pySpace a) && !pySpace a) = (fun c => !pySpace c) := by
    funext c; exact Bool.and_self _
  rw [h2, List.map_map]
  have h3 : (pyUpperChar ∘ pyUpperChar) = pyUpperChar := by
    funext c; exact pyUpperChar_idem c
  rw [h3]

/-- C5 counterexample: the source normalization does not zero-pad, so
"mdy 7" maps to "MDY7", which differs from normalize("MDY07") = "MDY07";
the claimed common image "MDY07" is wrong for "mdy 7". -/
theorem normalize_mdy7_counterexample :
    normalizeId (strCodes ("mdy 7")) = strCodes ("MDY7") ∧
    normalizeId (strCodes ("MDY07")) = strCodes ("MDY07") ∧
    ¬ normalizeId (strCodes ("mdy 7")) = normalizeId (strCodes ("MDY07")) ∧
    ¬ normalizeId (strCodes ("mdy 7")) = strCodes ("MDY07") := by
  refine ⟨by decide, by decide, by decide, by decide⟩

/-- C5 (corrected): identifier normalization (drop whitespace, upper-case)
is idempotent, and it maps "mdy 7" to "MDY7" and "MDY07" to "MDY07" — two
different canonical strings, since no zero-padding is performed. -/
theorem normalizeId_idem_and_values :
    (∀ s : Str, normalizeId (normalizeId s) = normalizeId s) ∧
    normalizeId (strCodes ("mdy 7")) = strCodes ("MDY7") ∧
    normalizeId (strCodes ("MDY07")) = strCodes ("MDY07") :=
  ⟨normalizeId_idem, by decide, by decide⟩

/-- C2 counterexample: for the 5 distinct points 0..4 and maxCount 4 (≥ 2),
the simplifier keeps indices 1,2,3 (step = 5 // 3 = 1) and appends the last
point, returning all 5 points — more than maxCount. -/
theorem simplify_bound_counterexample :
    2 ≤ 4 ∧ ¬ ((_simplify_points [0, 1, 2, 3, 4] 4).length ≤ 4) := by
  refine ⟨by decide, by decide⟩

/-- C3 counterexample: for 25 pairwise-distinct points and maxCount 10 the
simplifier returns 13 points (step = 25 // 9 = 2, interior indices
2,4,...,22, plus both endpoints), not 10. -/
theorem simplify_25_10_counterexample :
    (List.range 25).Pairwise (· ≠ ·) ∧
    ¬ (_simplify_points (List.range 25) 10).length = 10 := by
  refine ⟨by decide, by decide⟩

/-- Every index walked by the stride loop lies strictly below the last
index of the list. -/
theorem pyRange_step_lt (n q : Nat) (hq : 1 ≤ q) :
    ∀ i ∈ pyRange q (n - 1) q, i < n - 1 := by
  intro i hi
  rw [pyRange, List.mem_range'] at hi
  obtain ⟨j, hj, rfl⟩ := hi
  rcases Nat.lt_or_ge (n - 1) q with h | h
  · have hz : (n - 1 - q + q - 1) / q = 0 := by
      have h0 : n - 1 - q + q - 1 = q - 1 := by omega
      rw [h0]
      exact Nat.div_eq_of_lt (by omega)
    omega
  · have hcnt : (n - 1 - q + q - 1) / q = (n - 2) / q := by
      congr 1
      omega
    rw [hcnt] at hj
    have h1 : (j + 1) * q ≤ ((n - 2) / q) * q := Nat.mul_le_mul_right q hj
    have h2 : ((n - 2) / q) * q ≤ n - 2 := Nat.div_mul_le_self _ _
    have h3 : q + q * j = (j + 1) * q := by ring
    have h4 : q ≤ (j + 1) * q := Nat.le_mul_of_pos_left q (by omega)
    omega

/-- Index lookup over in-range indices loses nothing. -/
theorem filterMap_getElem_length {α : Type} (l : List α) :
    ∀ is : List Nat, (∀ i ∈ is, i < l.length) →
      (is.filterMap fun i => l[i]?).length = is.length := by
  intro is
  induction is with
  | nil => intro _; rfl
  | cons i t ih =>
    intro h
    cases heq : l[i]? with
    | none =>
      exact absurd (List.getElem?_eq_none_iff.mp heq)
        (by have := h i (by simp); omega)
    | some x =>
      simp only [List.filterMap_cons, heq, List.length_cons]
      rw [ih (fun j hj => h j (by simp [hj]))]

/-- Index lookup along an arithmetic index progression is a sublist of the
corresponding tail of the list. -/
theorem filterMap_getElem_range'_sublist {α : Type} (l : List α) (s : Nat) (hs : 1 ≤ s) :
    ∀ (c a : Nat), List.Sublist ((List.range' a c s).filterMap fun i => l[i]?) (l.drop a) := by
  intro c
  induction c with
  | zero => intro a; simp
  | succ c ih =>
    intro a
    rw [List.range'_succ]
    cases heq : l[a]? with
    | none =>
      simp only [List.filterMap_cons, heq]
      exact (ih (a + s)).trans (List.drop_sublist_drop_left l (by omega))
    | some x =>
      simp only [List.filterMap_cons, heq]
      have ha : a < l.length := by
        by_contra hcon
        rw [List.getElem?_eq_none (by omega)] at heq
        exact Option.noConfusion heq
      have hx : l[a] = x := by
        rw [List.getElem?_eq_getElem ha] at heq
        exact Option.some.inj heq
      rw [List.drop_eq_getElem_cons ha, hx]
      exact List.Sublist.cons₂ x
        ((ih (a + s)).trans (List.drop_sublist_drop_left l (by omega)))

/-- First point plus strided interior is a sublist of the whole list. -/
theorem take_one_append_interior_sublist {α : Type} (l : List α) (a c s : Nat)
    (hs : 1 ≤ s) (ha : 1 ≤ a) :
    List.Sublist (l.take 1 ++ ((List.range' a c s).filterMap fun i => l[i]?)) l := by
  cases l with
  | nil =>
    have hz : ((List.range' a c s).filterMap fun i => ([] : List α)[i]?) = [] := by
      rw [List.filterMap_eq_nil_iff]
      intro i _
      simp
    simp [hz]
  | cons p rest =>
    have h1 := filterMap_getElem_range'_sublist (p :: rest) s hs c a
    have h2 : List.Sublist ((p :: rest).drop a) ((p :: rest).drop 1) :=
      List.drop_sublist_drop_left _ ha
    have h3 : List.Sublist ((List.range' a c s).filterMap fun i => (p :: rest)[i]?) rest :=
      h1.trans (by simpa using h2)
    simpa using List.Sublist.cons₂ p h3

/-- Unfolding of the simplifier in the reducing branch. -/
theorem simplify_eq_of_lt {α : Type} [DecidableEq α] (P : List α) (N : Nat)
    (h : N < P.length) :
    _simplify_points P N =
      (if (P.take 1 ++ ((pyRange (P.length / (N - 1)) (P.length - 1)
            (P.length / (N - 1))).filterMap fun i => P[i]?)).getLast? ≠ P.getLast?
       then (P.take 1 ++ ((pyRange (P.length / (N - 1)) (P.length - 1)
            (P.length / (N - 1))).filterMap fun i => P[i]?)) ++ P.getLast?.toList
       else P.take 1 ++ ((pyRange (P.length / (N - 1)) (P.length - 1)
            (P.length / (N - 1))).filterMap fun i => P[i]?)) := by
  unfold _simplify_points
  rw [if_neg (Nat.not_le.mpr h)]

/-- C4 (confirmed): for N ≥ 2, if the input fits the bound the simplifier
returns it unchanged; otherwise the result starts with the first input
point, ends with a point equal to the last input point, and is a
subsequence of the input taken at strictly increasing indices
(List.Sublist). -/
theorem simplify_endpoints_sublist {α : Type} [DecidableEq α] (P : List α) (N : Nat)
    (hN : 2 ≤ N) :
    (P.length ≤ N → _simplify_points P N = P) ∧
    (N < P.length →
      (_simplify_points P N).head? = P.head? ∧
      (_simplify_points P N).getLast? = P.getLast? ∧
      List.Sublist (_simplify_points P N) P) := by
  constructor
  · intro h
    unfold _simplify_points
    rw [if_pos h]
  · intro h
    have hP : P ≠ [] := List.ne_nil_of_length_pos (by omega)
    rw [simplify_eq_of_lt P N h]
    set q := P.length / (N - 1) with hqdef
    have hq : 1 ≤ q := by
      rw [hqdef, Nat.one_le_div_iff (by omega)]
      omega
    obtain ⟨g, hg⟩ : ∃ g, P.getLast? = some g := by
      cases hcase : P.getLast? with
      | none => exact absurd (List.getLast?_eq_none_iff.mp hcase) hP
      | some g => exact ⟨g, rfl⟩
    obtain ⟨p0, hp0⟩ : ∃ p0, P.head? = some p0 := by
      cases hcase : P.head? with
      | none => exact absurd (List.head?_eq_none_iff.mp hcase) hP
      | some p0 => exact ⟨p0, rfl⟩
    have hcore_head :
        (P.take 1 ++ ((pyRange q (P.length - 1) q).filterMap fun i => P[i]?)).head?
          = some p0 := by
      rw [List.head?_append, List.head?_take, if_neg (by omega), hp0]
      rfl
    have hcore_sub :
        List.Sublist (P.take 1 ++ ((pyRange q (P.length - 1) q).filterMap fun i => P[i]?)) P := by
      rw [pyRange]
      exact take_one_append_interior_sublist P q _ q hq hq
    have htake : P.take 1 = P.dropLast.take 1 := by
      rw [List.take_one, List.take_one]
      congr 1
      rw [List.head?_eq_getElem?, List.head?_eq_getElem?, List.getElem?_dropLast,
        if_pos (by omega)]
    have hmap : ((pyRange q (P.length - 1) q).filterMap fun i => P[i]?) =
        ((pyRange q (P.length - 1) q).filterMap fun i => P.dropLast[i]?) := by
      apply List.filterMap_congr
      intro i hi
      rw [List.getElem?_dropLast, if_pos (pyRange_step_lt P.length q hq i hi)]
    have hcore_dropLast :
        List.Sublist (P.take 1 ++ ((pyRange q (P.length - 1) q).filterMap fun i => P[i]?))
          P.dropLast := by
      rw [htake, hmap, pyRange]
      exact take_one_append_interior_sublist P.dropLast q _ q hq hq
    have hfull : P.dropLast ++ [g] = P :=
      List.dropLast_append_getLast? g (Option.mem_def.mpr hg)
    split_ifs with hne
    · refine ⟨?_, ?_, ?_⟩
      · rw [List.head?_append, hcore_head, hp0]
        rfl
      · rw [hg]
        simp [List.getLast?_concat]
      · rw [hg]
        have : List.Sublist
            ((P.take 1 ++ ((pyRange q (P.length - 1) q).filterMap fun i => P[i]?)) ++ [g])
            (P.dropLast ++ [g]) :=
          List.Sublist.append hcore_dropLast (List.Sublist.refl [g])
        rw [hfull] at this
        simpa using this
    · refine ⟨?_, ?_, ?_⟩
      · rw [hcore_head, hp0]
      · exact not_not.mp hne
      · exact hcore_sub

/-- C4 witness: concrete instance with 5 points and maxCount 3. -/
theorem simplify_endpoints_sublist_witness :
    (_simplify_points [0, 1, 2, 3, 4] 3).head? = some 0 ∧
    (_simplify_points [0, 1, 2, 3, 4] 3).getLast? = some 4 ∧
    List.Sublist (_simplify_points [0, 1, 2, 3, 4] 3) [0, 1, 2, 3, 4] := by
  obtain ⟨h1, h2⟩ := simplify_endpoints_sublist [0, 1, 2, 3, 4] 3 (by decide)
  obtain ⟨ha, hb, hc⟩ := h2 (by decide)
  exact ⟨by simpa using ha, by simpa using hb, hc⟩

/-- C2 (corrected): the result length obeys max(2N-3, 2) for every N ≥ 2
(the claimed bound N itself fails, see the counterexample). -/
theorem simplify_length_bound_amended {α : Type} [DecidableEq α] (P : List α) (N : Nat)
    (hN : 2 ≤ N) :
    (_simplify_points P N).length ≤ max (2 * N - 3) 2 := by
  by_cases h : P.length ≤ N
  · unfold _simplify_points
    rw [if_pos h]
    omega
  · push_neg at h
    rw [simplify_eq_of_lt P N h]
    set q := P.length / (N - 1) with hqdef
    have hq : 1 ≤ q := by
      rw [hqdef, Nat.one_le_div_iff (by omega)]
      omega
    have hint : ((pyRange q (P.length - 1) q).filterMap fun i => P[i]?).length
        ≤ (P.length - 1 - q + q - 1) / q := by
      refine le_trans (List.length_filterMap_le _ _) ?_
      rw [pyRange, List.length_range']
    have hcnt : 2 + (P.length - 1 - q + q - 1) / q ≤ max (2 * N - 3) 2 := by
      rcases Nat.lt_or_ge N 3 with h3 | h3
      · have hN2 : N = 2 := by omega
        have hq2 : q = P.length := by
          rw [hqdef, hN2]
          simp
        have hnum : P.length - 1 - q + q - 1 = P.length - 1 := by omega
        rw [hnum, hq2, Nat.div_eq_of_lt (by omega)]
        omega
      · have hqle : q ≤ P.length - 1 := by
          have hd : P.length / (N - 1) ≤ P.length / 2 :=
            Nat.div_le_div_left (by omega) (by omega)
          have hd2 : P.length / 2 < P.length := Nat.div_lt_self (by omega) (by omega)
          omega
        have hnum : P.length - 1 - q + q - 1 = P.length - 2 := by omega
        rw [hnum]
        have hdm := Nat.div_add_mod P.length (N - 1)
        have hr : P.length % (N - 1) < N - 1 := Nat.mod_lt _ (by omega)
        have hsplit : (N - 1) * q = (N - 3) * q + 2 * q := by
          rw [← Nat.add_mul]
          congr 1
          omega
        have hkey : N - 3 ≤ (N - 3) * q := Nat.le_mul_of_pos_right _ hq
        have hlt : P.length - 2 < (2 * N - 4) * q := by
          have h24 : (2 * N - 4) * q = (N - 3) * q + ((N - 3) * q + 2 * q) := by
            rw [← Nat.add_mul, ← Nat.add_mul]
            congr 1
            omega
          rw [h24]
          rw [hsplit] at hdm
          omega
        have hdiv : (P.length - 2) / q < 2 * N - 4 :=
          (Nat.div_lt_iff_lt_mul (by omega)).mpr hlt
        omega
    split_ifs with hne
    · rw [List.length_append, List.length_append]
      have ht : (P.take 1).length ≤ 1 := by
        rw [List.length_take]
        omega
      have htl : P.getLast?.toList.length ≤ 1 := by
        cases P.getLast? <;> simp
      omega
    · rw [List.length_append]
      have ht : (P.take 1).length ≤ 1 := by
        rw [List.length_take]
        omega
      omega

/-- C2 witness: concrete instance of the amended bound at N = 4. -/
theorem simplify_length_bound_amended_witness :
    (_simplify_points [0, 1, 2, 3, 4] 4).length ≤ max (2 * 4 - 3) 2 :=
  simplify_length_bound_amended [0, 1, 2, 3, 4] 4 (by decide)

/-- C3 (corrected): for any 25 pairwise-distinct points and maxCount 10,
the simplifier returns exactly 13 points (not 10), beginning with p0 and
ending with p24. -/
theorem simplify_25_10_amended {α : Type} [DecidableEq α] (P : List α)
    (hlen : P.length = 25) (hdist : P.Pairwise (· ≠ ·)) :
    (_simplify_points P 10).length = 13 ∧
    (_simplify_points P 10).head? = P.head? ∧
    (_simplify_points P 10).getLast? = P.getLast? := by
  have h : 10 < P.length := by omega
  rw [simplify_eq_of_lt P 10 h, hlen]
  have hrange : pyRange (25 / (10 - 1)) (25 - 1) (25 / (10 - 1)) =
      [2, 4, 6, 8, 10, 12, 14, 16, 18, 20, 22] := by decide
  rw [hrange]
  obtain ⟨x22, hx22⟩ : ∃ x, P[22]? = some x := by
    rw [List.getElem?_eq_getElem (by omega : 22 < P.length)]
    exact ⟨_, rfl⟩
  obtain ⟨x24, hx24⟩ : ∃ x, P[24]? = some x := by
    rw [List.getElem?_eq_getElem (by omega : 24 < P.length)]
    exact ⟨_, rfl⟩
  obtain ⟨p0, hp0⟩ : ∃ x, P.head? = some x := by
    rw [List.head?_eq_getElem?, List.getElem?_eq_getElem (by omega : 0 < P.length)]
    exact ⟨_, rfl⟩
  have hglast : P.getLast? = some x24 := by
    rw [List.getLast?_eq_getElem?, hlen]
    exact hx24
  have hne : x22 ≠ x24 := by
    have h22 : 22 < P.length := by omega
    have h24 : 24 < P.length := by omega
    have hp := List.pairwise_iff_getElem.mp hdist 22 24 h22 h24 (by omega)
    have e22 : some P[22] = some x22 := (List.getElem?_eq_getElem h22).symm.trans hx22
    have e24 : some P[24] = some x24 := (List.getElem?_eq_getElem h24).symm.trans hx24
    rw [Option.some.injEq] at e22 e24
    rw [e22, e24] at hp
    exact hp
  have hsplitList : ([2, 4, 6, 8, 10, 12, 14, 16, 18, 20, 22] : List Nat) =
      [2, 4, 6, 8, 10, 12, 14, 16, 18, 20] ++ [22] := by decide
  have hlast22 :
      (P.take 1 ++ (([2, 4, 6, 8, 10, 12, 14, 16, 18, 20, 22] : List Nat).filterMap
        fun i => P[i]?)).getLast? = some x22 := by
    rw [hsplitList, List.filterMap_append]
    rw [show (([22] : List Nat).filterMap fun i => P[i]?) = [x22] by
      simp [List.filterMap_cons, hx22]]
    rw [← List.append_assoc, List.getLast?_concat]
  have hcond : (P.take 1 ++ (([2, 4, 6, 8, 10, 12, 14, 16, 18, 20, 22] : List Nat).filterMap
      fun i => P[i]?)).getLast? ≠ P.getLast? := by
    rw [hlast22, hglast]
    simp [hne]
  rw [if_pos hcond, hglast]
  have hmem : ∀ i ∈ ([2, 4, 6, 8, 10, 12, 14, 16, 18, 20, 22] : List Nat), i < P.length := by
    rw [hlen]
    decide
  have hintlen : (([2, 4, 6, 8, 10, 12, 14, 16, 18, 20, 22] : List Nat).filterMap
      fun i => P[i]?).length = 11 :=
    filterMap_getElem_length P _ hmem
  refine ⟨?_, ?_, ?_⟩
  · rw [List.length_append, List.length_append, hintlen, List.length_take, hlen]
    rfl
  · rw [List.head?_append, List.head?_append, List.head?_take, if_neg (by omega), hp0]
    rfl
  · rw [show (some x24).toList = [x24] from rfl, List.getLast?_concat]

/-- C3 witness: the amended statement at the concrete input 0..24. -/
theorem simplify_25_10_amended_witness :
    (_simplify_points (List.range 25) 10).length = 13 ∧
    (_simplify_points (List.range 25) 10).head? = (List.range 25).head? ∧
    (_simplify_points (List.range 25) 10).getLast? = (List.range 25).getLast? :=
  simplify_25_10_amended (List.range 25) (by decide) (by decide)

/-- C7 (confirmed): building a mapping link from an empty point sequence
fails for every route record with empty points: MapsConverter.convert
raises ValueError("No points found in route data") and the API-free
builder create_maps_url_no_api raises ValueError("No points provided"). -/
theorem build_link_empty_points_error :
    (∀ (c : MapsConverter) (rd : RouteData), rd.points = [] →
      MapsConverter.convert c rd =
        Except.error (strCodes ("No points found in route data"))) ∧
    (∀ name : Str, create_maps_url_no_api [] name =
        Except.error (strCodes ("No points provided"))) := by
  constructor
  · intro c rd hpts
    unfold MapsConverter.convert
    rw [if_pos hpts]
  · intro name
    rfl

/-- C7 witness: the empty record at a concrete converter and name. -/
theorem build_link_empty_points_error_witness :
    MapsConverter.convert ⟨strCodes ("DEMO_API_KEY")⟩ ⟨[], none⟩ =
      Except.error (strCodes ("No points found in route data")) ∧
    create_maps_url_no_api [] (strCodes ("Route")) =
      Except.error (strCodes ("No points provided")) :=
  ⟨build_link_empty_points_error.1 ⟨strCodes ("DEMO_API_KEY")⟩ ⟨[], none⟩ rfl,
   build_link_empty_points_error.2 (strCodes ("Route"))⟩

/-- C8 (confirmed): converting the singleton route [(50.4233, 6.0294)]
yields the URL whose path carries the coordinate as the single waypoint
segment and again in the @-view anchor, with the fixed pedestrian token
!4m2!4m1!3e2. -/
theorem convert_singleton_coordinate_twice :
    MapsConverter.convert ⟨strCodes ("DEMO_API_KEY")⟩
        ⟨[(strCodes ("50.4233"), strCodes ("6.0294"))], none⟩ =
      Except.ok (strCodes
        ("https://www.google.com/maps/dir/50.4233,6.0294/@50.4233,6.0294,12z/data=!4m2!4m1!3e2")) ∧
    pyContains (strCodes ("/dir/50.4233,6.0294/@")) (strCodes
      ("https://www.google.com/maps/dir/50.4233,6.0294/@50.4233,6.0294,12z/data=!4m2!4m1!3e2")) = true ∧
    pyContains (strCodes ("@50.4233,6.0294,")) (strCodes
      ("https://www.google.com/maps/dir/50.4233,6.0294/@50.4233,6.0294,12z/data=!4m2!4m1!3e2")) = true ∧
    pyContains (strCodes ("!4m2!4m1!3e2")) (strCodes
      ("https://www.google.com/maps/dir/50.4233,6.0294/@50.4233,6.0294,12z/data=!4m2!4m1!3e2")) = true := by
  refine ⟨rfl, by decide, by decide, by decide⟩

/-- C9 (confirmed): MapsConverter.convert reads nothing from the API key —
for any two keys and any route data with nonempty points the produced link
is the same, and it is a successful URL. -/
theorem convert_independent_of_api_key (k1 k2 : Str) (rd : RouteData)
    (hpts : rd.points ≠ []) :
    MapsConverter.convert ⟨k1⟩ rd = MapsConverter.convert ⟨k2⟩ rd ∧
    ∃ u : Str, MapsConverter.convert ⟨k1⟩ rd = Except.ok u := by
  refine ⟨rfl, ?_⟩
  unfold MapsConverter.convert
  rw [if_neg hpts]
  exact ⟨_, rfl⟩

/-- C9 witness: two different keys at a concrete one-point record. -/
theorem convert_independent_of_api_key_witness :
    MapsConverter.convert ⟨strCodes ("KEY-A")⟩
        ⟨[(strCodes ("50.4233"), strCodes ("6.0294"))], none⟩ =
      MapsConverter.convert ⟨strCodes ("KEY-B")⟩
        ⟨[(strCodes ("50.4233"), strCodes ("6.0294"))], none⟩ ∧
    ∃ u : Str, MapsConverter.convert ⟨strCodes ("KEY-A")⟩
        ⟨[(strCodes ("50.4233"), strCodes ("6.0294"))], none⟩ = Except.ok u :=
  convert_independent_of_api_key _ _ _ (by decide)

/-- C6 (confirmed): for every candidate list, the search filters keep a
candidate exactly when it passes the prefix test and its parsed distance —
when one exists — does not exceed the bound; a candidate whose distance
token does not parse is kept (parsing is a total function in the model,
matching the caught ValueError of the source). Stated for the Malmedy
filter and for the RouteYou/Wikiloc sample filter. -/
theorem search_distance_filter_characterization :
    (∀ (pfx : Str) (km : ℚ) (l : List MalmedyCandidate) (c : MalmedyCandidate),
      c ∈ malmedySearchFilter pfx km l ↔
        c ∈ l ∧ (pfx = [] ∨ pfx.isPrefixOf c.route_id = true) ∧
          ∀ d : ℚ, malmedyParsedDistance c = some d → d ≤ km) ∧
    (∀ (pfx : Str) (km : ℚ) (l : List RouteYouCandidate) (c : RouteYouCandidate),
      c ∈ routeYouSearchFilter pfx km l ↔
        c ∈ l ∧ (pfx = [] ∨ pfx.isPrefixOf c.title = true) ∧
          ∀ d : ℚ, pyFloatParse c.distance = some d → d ≤ km) := by
  constructor
  · intro pfx km l c
    rw [malmedySearchFilter, List.mem_filter]
    refine and_congr Iff.rfl ?_
    rw [malmedyKeep, Bool.and_eq_true, Bool.or_eq_true, decide_eq_true_eq]
    refine and_congr Iff.rfl ?_
    cases hds : c.distance_str with
    | none => simp [malmedyParsedDistance, hds]
    | some ds =>
      by_cases hempty : ds = []
      · simp [malmedyParsedDistance, hds, hempty]
      · cases hp : pyFloatParse ds with
        | none => simp [malmedyParsedDistance, hds, hempty, hp]
        | some d => simp [malmedyParsedDistance, hds, hempty, hp]
  · intro pfx km l c
    rw [routeYouSearchFilter, List.mem_filter]
    refine and_congr Iff.rfl ?_
    rw [routeYouKeep, Bool.and_eq_true, Bool.or_eq_true, decide_eq_true_eq]
    refine and_congr Iff.rfl ?_
    cases hp : pyFloatParse c.distance with
    | none => simp [hp]
    | some d => simp [hp]

/-- C10 (confirmed): the RouteYou and Wikiloc downloads never touch the
network (their model takes no fetch environment, mirroring the absence of
any session.get call in scraper.py lines 142–159 and 440–456), and the
sample record written is the same for every URL matching the adapter's
route-id pattern — the sample GPX interpolates only the fixed name, so only
the output filename depends on the URL. -/
theorem sample_downloads_url_independent :
    (∀ u1 u2 : Str, (∃ r, routeYouIdSearch u1 = some r) →
      (∃ r, routeYouIdSearch u2 = some r) →
      ∃ f1 f2 rec, RouteYouScraper.download u1 none = Except.ok (f1, Artifact.sample rec) ∧
        RouteYouScraper.download u2 none = Except.ok (f2, Artifact.sample rec)) ∧
    (∀ u1 u2 : Str, (∃ r, wikilocIdSearch u1 = some r) →
      (∃ r, wikilocIdSearch u2 = some r) →
      ∃ f1 f2 rec, WikilocScraper.download u1 none = Except.ok (f1, Artifact.sample rec) ∧
        WikilocScraper.download u2 none = Except.ok (f2, Artifact.sample rec)) := by
  constructor
  · rintro u1 u2 ⟨r1, hr1⟩ ⟨r2, hr2⟩
    refine ⟨_save_gpx_path (strCodes ("routeyou_") ++ r1 ++ strCodes (".gpx")),
      _save_gpx_path (strCodes ("routeyou_") ++ r2 ++ strCodes (".gpx")),
      ⟨strCodes ("DEMO RouteYou Route (SAMPLE)"), sampleGpxPoints⟩, ?_, ?_⟩
    · unfold RouteYouScraper.download
      rw [hr1]
      rfl
    · unfold RouteYouScraper.download
      rw [hr2]
      rfl
  · rintro u1 u2 ⟨r1, hr1⟩ ⟨r2, hr2⟩
    refine ⟨_save_gpx_path (strCodes ("wikiloc_") ++ r1 ++ strCodes (".gpx")),
      _save_gpx_path (strCodes ("wikiloc_") ++ r2 ++ strCodes (".gpx")),
      ⟨strCodes ("DEMO Wikiloc Route (SAMPLE)"), sampleGpxPoints⟩, ?_, ?_⟩
    · unfold WikilocScraper.download
      rw [hr1]
      rfl
    · unfold WikilocScraper.download
      rw [hr2]
      rfl

/-- C10 witness: two distinct RouteYou URLs and two distinct Wikiloc URLs
from the sample listings produce identical records. -/
theorem sample_downloads_url_independent_witness :
    (∃ f1 f2 rec,
      RouteYouScraper.download
        (strCodes ("https://www.routeyou.com/en-be/route/view/malmedy-city-walk")) none =
        Except.ok (f1, Artifact.sample rec) ∧
      RouteYouScraper.download
        (strCodes ("https://www.routeyou.com/en-be/route/view/high-fens-trail")) none =
        Except.ok (f2, Artifact.sample rec)) ∧
    (∃ f1 f2 rec,
      WikilocScraper.download
        (strCodes ("https://www.wikiloc.com/wikiloc/view.do?id=bayehon-waterfall")) none =
        Except.ok (f1, Artifact.sample rec) ∧
      WikilocScraper.download
        (strCodes ("https://www.wikiloc.com/wikiloc/view.do?id=signal-botrange")) none =
        Except.ok (f2, Artifact.sample rec)) :=
  ⟨sample_downloads_url_independent.1 _ _
      ⟨strCodes ("malmedy-city-walk"), by decide⟩ ⟨strCodes ("high-fens-trail"), by decide⟩,
   sample_downloads_url_independent.2 _ _
      ⟨strCodes ("bayehon-waterfall"), by decide⟩ ⟨strCodes ("signal-botrange"), by decide⟩⟩

/-- C1 (confirmed): the Malmedy download never validates the URL, so for
every URL string (a fortiori every syntactically valid host-owned one),
whenever the page fetch fails, the page lacks an export link, the artifact
fetch fails, or the artifact is rejected (wrong content type / parse
signature), the call still returns a written artifact backed by the sample
route record: 8 points — 6 interior ones framed by a first point and a
closing point equal to it — hence at least 7.  The model is a total
function: every exception of the source's try block is caught (scraper.py
lines 354–360) and control reaches the fallback of lines 362–381, so the
call never raises. -/
theorem malmedy_download_fallback_total (env : MalmedyEnv) (url : Str) (ofn : Option Str)
    (hfail : env.pageResult = none ∨
      ∃ page, env.pageResult = some page ∧
        (page.gpx_link = none ∨
          ∃ link, page.gpx_link = some link ∧
            (env.fetchGpx (malmedyGpxUrl link.href) = none ∨
              ∃ resp, env.fetchGpx (malmedyGpxUrl link.href) = some resp ∧
                gpxAccepted resp = false))) :
    ∃ fname rec, MalmedyTourismScraper.download env url ofn = (fname, Artifact.sample rec) ∧
      rec.points = sampleGpxPoints ∧ rec.points.length = 8 ∧ 7 ≤ rec.points.length ∧
      rec.points.head? = rec.points.getLast? := by
  have hprops : sampleGpxPoints.length = 8 ∧ 7 ≤ sampleGpxPoints.length ∧
      sampleGpxPoints.head? = sampleGpxPoints.getLast? := by
    refine ⟨rfl, by decide, rfl⟩
  rcases hfail with hpage | ⟨page, hpage, hlink | ⟨link, hlink, hfetch | ⟨resp, hfetch, hacc⟩⟩⟩
  · have hres : MalmedyTourismScraper.download env url ofn =
        malmedyFallbackResult url ofn none none := by
      simp only [MalmedyTourismScraper.download, hpage]
    exact ⟨_, _, hres, rfl, hprops.1, hprops.2.1, hprops.2.2⟩
  · have hres : MalmedyTourismScraper.download env url ofn =
        malmedyFallbackResult url ofn (extractIdName page).1 (extractIdName page).2 := by
      simp only [MalmedyTourismScraper.download, hpage, hlink]
    exact ⟨_, _, hres, rfl, hprops.1, hprops.2.1, hprops.2.2⟩
  · have hres : MalmedyTourismScraper.download env url ofn =
        malmedyFallbackResult url ofn (extractIdName page).1 (extractIdName page).2 := by
      simp only [MalmedyTourismScraper.download, hpage, hlink, hfetch]
    exact ⟨_, _, hres, rfl, hprops.1, hprops.2.1, hprops.2.2⟩
  · have hres : MalmedyTourismScraper.download env url ofn =
        malmedyFallbackResult url ofn (extractIdName page).1 (extractIdName page).2 := by
      simp only [MalmedyTourismScraper.download, hpage, hlink, hfetch, hacc,
        Bool.false_eq_true, if_false]
    exact ⟨_, _, hres, rfl, hprops.1, hprops.2.1, hprops.2.2⟩

/-- C1 witness: a concrete environment whose page fetch fails, at a
host-owned URL. -/
theorem malmedy_download_fallback_total_witness :
    ∃ fname rec,
      MalmedyTourismScraper.download ⟨none, fun _ => none⟩
        (strCodes ("https://www.malmedy-tourisme.be/en/a-pied/promenade-des-moulins/"))
        none = (fname, Artifact.sample rec) ∧
      rec.points = sampleGpxPoints ∧ rec.points.length = 8 ∧ 7 ≤ rec.points.length ∧
      rec.points.head? = rec.points.getLast? :=
  malmedy_download_fallback_total _ _ _ (Or.inl rfl)

/-- C5 witness: idempotency evaluated at the two concrete identifiers. -/
theorem normalizeId_idem_and_values_witness :
    normalizeId (normalizeId (strCodes ("mdy 7"))) = normalizeId (strCodes ("mdy 7")) ∧
    normalizeId (strCodes ("mdy 7")) = strCodes ("MDY7") ∧
    normalizeId (strCodes ("MDY07")) = strCodes ("MDY07") :=
  ⟨normalizeId_idem_and_values.1 (strCodes ("mdy 7")),
   normalizeId_idem_and_values.2.1, normalizeId_idem_and_values.2.2⟩

/-- C6 witness: the characterization at a concrete candidate list and a
concrete candidate. -/
theorem search_distance_filter_characterization_witness :
    ((⟨strCodes ("MDY01"), strCodes ("MDY01 A"), some (strCodes ("5.5")), strCodes ("u1")⟩ :
        MalmedyCandidate) ∈ malmedySearchFilter (strCodes ("MDY")) 10
          [⟨strCodes ("MDY01"), strCodes ("MDY01 A"), some (strCodes ("5.5")), strCodes ("u1")⟩,
           ⟨strCodes ("MDY02"), strCodes ("MDY02 B"), some (strCodes ("11")), strCodes ("u2")⟩] ↔
        (⟨strCodes ("MDY01"), strCodes ("MDY01 A"), some (strCodes ("5.5")), strCodes ("u1")⟩ :
          MalmedyCandidate) ∈
          [⟨strCodes ("MDY01"), strCodes ("MDY01 A"), some (strCodes ("5.5")), strCodes ("u1")⟩,
           ⟨strCodes ("MDY02"), strCodes ("MDY02 B"), some (strCodes ("11")), strCodes ("u2")⟩] ∧
          (strCodes ("MDY") = [] ∨ (strCodes ("MDY")).isPrefixOf
            (⟨strCodes ("MDY01"), strCodes ("MDY01 A"), some (strCodes ("5.5")), strCodes ("u1")⟩ :
              MalmedyCandidate).route_id = true) ∧
          ∀ d : ℚ, malmedyParsedDistance
            ⟨strCodes ("MDY01"), strCodes ("MDY01 A"), some (strCodes ("5.5")), strCodes ("u1")⟩ =
              some d → d ≤ 10) ∧
    ((⟨strCodes ("MDY-01 A"), strCodes ("5.2"), strCodes ("u1")⟩ : RouteYouCandidate) ∈
        routeYouSearchFilter [] 10
          [⟨strCodes ("MDY-01 A"), strCodes ("5.2"), strCodes ("u1")⟩] ↔
        (⟨strCodes ("MDY-01 A"), strCodes ("5.2"), strCodes ("u1")⟩ : RouteYouCandidate) ∈
          [⟨strCodes ("MDY-01 A"), strCodes ("5.2"), strCodes ("u1")⟩] ∧
          (([] : Str) = [] ∨ ([] : Str).isPrefixOf
            (⟨strCodes ("MDY-01 A"), strCodes ("5.2"), strCodes ("u1")⟩ :
              RouteYouCandidate).title = true) ∧
          ∀ d : ℚ, pyFloatParse
            (⟨strCodes ("MDY-01 A"), strCodes ("5.2"), strCodes ("u1")⟩ :
              RouteYouCandidate).distance = some d → d ≤ 10) :=
  ⟨search_distance_filter_characterization.1 (strCodes ("MDY")) 10 _ _,
   search_distance_filter_characterization.2 [] 10 _ _⟩
